import Mathlib

/-!
Verification of the shader-loading logic of the two OpenGL example programs
(src/examples/triangle/main.cpp and src/examples/rectangle/main.cpp).

The file input is modelled as a list of lines: a successful getline loop
yields the lines of the file in order, and an unopenable file yields no
lines at all.  The out-of-bounds array index that the C++ code can perform
(writing to ss[-1]) is modelled with an Option-returning indexing function,
so the embedding returns none exactly where the C++ program has undefined
behaviour.
-/

/-- Whether the pattern occurs at the very start of the character list. -/
def startsWithChars : List Char → List Char → Bool
  | [], _ => true
  | _ :: _, [] => false
  | p :: ps, c :: cs => (p == c) && startsWithChars ps cs

/-- Whether the pattern occurs somewhere inside the character list. -/
def containsChars (pat : List Char) : List Char → Bool
  | [] => pat.isEmpty
  | c :: cs => startsWithChars pat (c :: cs) || containsChars pat cs

/-- Model of std::string::find(pat) != std::string::npos: substring test. -/
def hasSubstr (s pat : String) : Bool :=
  containsChars pat.toList s.toList

/-- The ShaderType enum local to ParseShader: NONE = -1, VERTEX = 0, FRAGMENT = 1. -/
inductive ShaderType
  | NONE
  | VERTEX
  | FRAGMENT
deriving DecidableEq

/-- The value of static_cast of ShaderType, as in the C++ source. -/
def ShaderType.toIndex : ShaderType → Int
  | .NONE => -1
  | .VERTEX => 0
  | .FRAGMENT => 1

/-- Result structure of ParseShader. -/
structure ShaderSource where
  vertexShaderSource : String
  fragmentShaderSource : String
deriving DecidableEq

namespace Rectangle

/-- The array write ss[i] << line << '\n' of ParseShader, with the two
stringstreams modelled as a pair of strings.  Indices other than 0 and 1
are out of bounds in the C++ code (undefined behaviour), modelled as none. -/
def appendAt (ss : String × String) (i : Int) (line : String) :
    Option (String × String) :=
  if i = 0 then some (ss.1 ++ line ++ "\n", ss.2)
  else if i = 1 then some (ss.1, ss.2 ++ line ++ "\n")
  else none

/-- The getline loop of ParseShader (src/examples/rectangle/main.cpp lines
169-186), processing the remaining lines with the current target type and
buffer pair. -/
def parseLoop (ty : ShaderType) (ss : String × String) :
    List String → Option (String × String)
  | [] => some ss
  | line :: rest =>
    if hasSubstr line "shader" then
      if hasSubstr line "vertex" then parseLoop ShaderType.VERTEX ss rest
      else if hasSubstr line "fragment" then parseLoop ShaderType.FRAGMENT ss rest
      else parseLoop ty ss rest
    else
      match appendAt ss ty.toIndex line with
      | some ss2 => parseLoop ty ss2 rest
      | none => none

/-- ParseShader of the rectangle example, on the lines of the file:
type starts at NONE, both buffers start empty, and the result is built
from buffer 0 (vertex) and buffer 1 (fragment). -/
def parseShaderLines (lines : List String) : Option ShaderSource :=
  (parseLoop ShaderType.NONE ("", "") lines).map
    (fun ss => ⟨ss.1, ss.2⟩)

/-- ParseShader on a file path: none models a file that cannot be opened,
in which case getline immediately fails and the loop body never runs. -/
def parseShaderFile (contents : Option (List String)) : Option ShaderSource :=
  parseShaderLines (contents.getD [])

end Rectangle

/-! ## Model of the OpenGL driver and the shader-building calls -/

/-- OpenGL enum values used by the shader-building code. -/
def GL_VERTEX_SHADER : Nat := 35633

/-- OpenGL enum value GL_FRAGMENT_SHADER. -/
def GL_FRAGMENT_SHADER : Nat := 35632

/-- OpenGL enum value GL_COMPILE_STATUS. -/
def GL_COMPILE_STATUS : Nat := 35713

/-- OpenGL enum value GL_INFO_LOG_LENGTH. -/
def GL_INFO_LOG_LENGTH : Nat := 35716

/-- The observable effects of the shader-building code: OpenGL calls made
through the driver, and lines printed to standard output. -/
inductive GLEvent
  | createShader (ty : Nat)
  | shaderSource (id : Nat) (src : String)
  | compileShader (id : Nat)
  | getShaderiv (id : Nat) (pname : Nat)
  | getShaderInfoLog (id : Nat)
  | deleteShader (id : Nat)
  | createProgram
  | attachShader (prog sh : Nat)
  | linkProgram (prog : Nat)
  | validateProgram (prog : Nat)
  | printLine (msg : String)
deriving DecidableEq

/-- The driver's observable answers: whether a given (stage, source) pair
compiles, and the diagnostic log text it reports for it. -/
structure GLDriver where
  compileOk : Nat → String → Bool
  infoLog : Nat → String → String

/-- State threaded through the shader-building calls: the next fresh object
identifier handed out by glCreateShader / glCreateProgram, and the trace of
events so far. -/
structure GLState where
  nextId : Nat
  events : List GLEvent
deriving DecidableEq

/-- Initial state: identifiers start at 1 (0 is the null handle), no events. -/
def initGLState : GLState := ⟨1, []⟩

namespace Rectangle

/-- CompileShader (src/examples/rectangle/main.cpp lines 198-223): create a
shader object, submit the source, compile, query the compile status; on
failure query the log length, fetch the log, print a header line and the
log, delete the shader object and return the null handle 0. -/
def CompileShader (drv : GLDriver) (ty : Nat) (source : String)
    (st : GLState) : Nat × GLState :=
  let shaderId := st.nextId
  let st1 : GLState :=
    ⟨st.nextId + 1, st.events ++ [GLEvent.createShader ty]⟩
  let st2 : GLState :=
    ⟨st1.nextId, st1.events ++
      [GLEvent.shaderSource shaderId source,
       GLEvent.compileShader shaderId,
       GLEvent.getShaderiv shaderId GL_COMPILE_STATUS]⟩
  if drv.compileOk ty source = false then
    let header := "Failed to compile " ++
      (if ty = GL_VERTEX_SHADER then "vertex" else "fragment") ++ " shader!"
    let st3 : GLState :=
      ⟨st2.nextId, st2.events ++
        [GLEvent.getShaderiv shaderId GL_INFO_LOG_LENGTH,
         GLEvent.getShaderInfoLog shaderId,
         GLEvent.printLine header,
         GLEvent.printLine (drv.infoLog ty source),
         GLEvent.deleteShader shaderId]⟩
    (0, st3)
  else
    (shaderId, st2)

/-- CreateShader (src/examples/rectangle/main.cpp lines 233-248): create a
program object, compile the vertex then the fragment stage, attach both
results, link, validate, delete the two shader objects, return the program
identifier. -/
def CreateShader (drv : GLDriver) (vertexShader fragmentShader : String)
    (st : GLState) : Nat × GLState :=
  let programId := st.nextId
  let st1 : GLState :=
    ⟨st.nextId + 1, st.events ++ [GLEvent.createProgram]⟩
  let r1 := CompileShader drv GL_VERTEX_SHADER vertexShader st1
  let vs := r1.1
  let r2 := CompileShader drv GL_FRAGMENT_SHADER fragmentShader r1.2
  let fs := r2.1
  let st4 : GLState :=
    ⟨r2.2.nextId, r2.2.events ++
      [GLEvent.attachShader programId vs,
       GLEvent.attachShader programId fs,
       GLEvent.linkProgram programId,
       GLEvent.validateProgram programId,
       GLEvent.deleteShader vs,
       GLEvent.deleteShader fs]⟩
  (programId, st4)

end Rectangle

/-! ## Model of the process environment used by main -/

/-- EXIT_SUCCESS of cstdlib. -/
def EXIT_SUCCESS : Nat := 0

/-- EXIT_FAILURE of cstdlib. -/
def EXIT_FAILURE : Nat := 1

/-- The external world main interacts with: whether glfwInit succeeds, the
value of the SHADER_PATH environment variable, whether glfwCreateWindow and
glewInit succeed, the filesystem (lines of each openable file), and the
OpenGL driver. -/
structure World where
  glfwInitOk : Bool
  shaderPathEnv : Option String
  createWindowOk : Bool
  glewInitOk : Bool
  fileLines : String → Option (List String)
  drv : GLDriver

/-- The printed output of a trace: its printLine events, in order. -/
def printedLines (events : List GLEvent) : List String :=
  events.filterMap (fun e =>
    match e with
    | GLEvent.printLine m => some m
    | _ => none)

namespace Rectangle

/-- main of the rectangle example (src/examples/rectangle/main.cpp lines
58-146), modelled up to its exit code and printed output.  The render loop
is assumed to end with a normal window close and prints nothing.  The
result is none when ParseShader performs its out-of-bounds write, where the
C++ program's behaviour is undefined. -/
def mainRun (w : World) : Option (Nat × List String) :=
  if w.glfwInitOk = false then some (EXIT_FAILURE, [])
  else
    match w.shaderPathEnv with
    | none =>
      some (EXIT_FAILURE, ["Environment variable for shader path not set"])
    | some path =>
      if w.createWindowOk = false then some (EXIT_FAILURE, [])
      else if w.glewInitOk = false then some (EXIT_FAILURE, [])
      else
        match parseShaderFile (w.fileLines path) with
        | none => none
        | some src =>
          let r := CreateShader w.drv src.vertexShaderSource
            src.fragmentShaderSource initGLState
          some (EXIT_SUCCESS, printedLines r.2.events)

end Rectangle

namespace Triangle

/-- The array write ss[i] << line << '\n' of the triangle example's
ParseShader; indices other than 0 and 1 are out of bounds (undefined
behaviour), modelled as none. -/
def appendAt (ss : String × String) (i : Int) (line : String) :
    Option (String × String) :=
  if i = 0 then some (ss.1 ++ line ++ "\n", ss.2)
  else if i = 1 then some (ss.1, ss.2 ++ line ++ "\n")
  else none

/-- The getline loop of the triangle example's ParseShader
(src/examples/triangle/main.cpp lines 125-142). -/
def parseLoop (ty : ShaderType) (ss : String × String) :
    List String → Option (String × String)
  | [] => some ss
  | line :: rest =>
    if hasSubstr line "shader" then
      if hasSubstr line "vertex" then parseLoop ShaderType.VERTEX ss rest
      else if hasSubstr line "fragment" then parseLoop ShaderType.FRAGMENT ss rest
      else parseLoop ty ss rest
    else
      match appendAt ss ty.toIndex line with
      | some ss2 => parseLoop ty ss2 rest
      | none => none

/-- ParseShader of the triangle example, on the lines of the file. -/
def parseShaderLines (lines : List String) : Option ShaderSource :=
  (parseLoop ShaderType.NONE ("", "") lines).map
    (fun ss => ⟨ss.1, ss.2⟩)

/-- ParseShader of the triangle example on a file path; none models an
unopenable file. -/
def parseShaderFile (contents : Option (List String)) : Option ShaderSource :=
  parseShaderLines (contents.getD [])

/-- CompileShader of the triangle example (src/examples/triangle/main.cpp
lines 154-179). -/
def CompileShader (drv : GLDriver) (ty : Nat) (source : String)
    (st : GLState) : Nat × GLState :=
  let shaderId := st.nextId
  let st1 : GLState :=
    ⟨st.nextId + 1, st.events ++ [GLEvent.createShader ty]⟩
  let st2 : GLState :=
    ⟨st1.nextId, st1.events ++
      [GLEvent.shaderSource shaderId source,
       GLEvent.compileShader shaderId,
       GLEvent.getShaderiv shaderId GL_COMPILE_STATUS]⟩
  if drv.compileOk ty source = false then
    let header := "Failed to compile " ++
      (if ty = GL_VERTEX_SHADER then "vertex" else "fragment") ++ " shader!"
    let st3 : GLState :=
      ⟨st2.nextId, st2.events ++
        [GLEvent.getShaderiv shaderId GL_INFO_LOG_LENGTH,
         GLEvent.getShaderInfoLog shaderId,
         GLEvent.printLine header,
         GLEvent.printLine (drv.infoLog ty source),
         GLEvent.deleteShader shaderId]⟩
    (0, st3)
  else
    (shaderId, st2)

/-- CreateShader of the triangle example (src/examples/triangle/main.cpp
lines 189-204). -/
def CreateShader (drv : GLDriver) (vertexShader fragmentShader : String)
    (st : GLState) : Nat × GLState :=
  let programId := st.nextId
  let st1 : GLState :=
    ⟨st.nextId + 1, st.events ++ [GLEvent.createProgram]⟩
  let r1 := CompileShader drv GL_VERTEX_SHADER vertexShader st1
  let vs := r1.1
  let r2 := CompileShader drv GL_FRAGMENT_SHADER fragmentShader r1.2
  let fs := r2.1
  let st4 : GLState :=
    ⟨r2.2.nextId, r2.2.events ++
      [GLEvent.attachShader programId vs,
       GLEvent.attachShader programId fs,
       GLEvent.linkProgram programId,
       GLEvent.validateProgram programId,
       GLEvent.deleteShader vs,
       GLEvent.deleteShader fs]⟩
  (programId, st4)

end Triangle

/-- Concatenation of lines, each followed by a newline: the contents a
stringstream holds after the loop has inserted each line and a newline. -/
def joinLines : List String → String
  | [] => ""
  | l :: ls => l ++ "\n" ++ joinLines ls


/-- Concrete driver for which every source compiles. -/
def GLDriverAllOk : GLDriver := ⟨fun _ _ => true, fun _ _ => ""⟩

/-- Concrete driver for which no source compiles; the log is fixed text. -/
def GLDriverAllFail : GLDriver := ⟨fun _ _ => false, fun _ _ => "syntax error"⟩

/-- Concrete driver for which only the fragment stage fails to compile. -/
def GLDriverFragFail : GLDriver :=
  ⟨fun ty _ => ty == GL_VERTEX_SHADER, fun _ _ => "frag log"⟩

/-- A world where window creation fails and everything else would succeed. -/
def noWindowWorld : World :=
  ⟨true, some "shader.glsl", false, true, fun _ => none, GLDriverAllOk⟩

/-- A world where glfwInit itself fails. -/
def failInitWorld : World :=
  ⟨false, none, true, true, fun _ => none, GLDriverAllOk⟩

/-! ## Helper lemmas -/

theorem parseLoop_vertex_append (ns : List String) :
    ∀ (v f : String) (tail : List String),
      (∀ l ∈ ns, hasSubstr l "shader" = false) →
      Rectangle.parseLoop ShaderType.VERTEX (v, f) (ns ++ tail) =
        Rectangle.parseLoop ShaderType.VERTEX (v ++ joinLines ns, f) tail := by
  induction ns with
  | nil =>
    intro v f tail _
    simp [joinLines, String.append_empty]
  | cons l ls ih =>
    intro v f tail hn
    have hl : hasSubstr l "shader" = false := hn l (List.mem_cons_self l ls)
    have h2 := ih (v ++ (l ++ "\n")) f tail
      (fun x hx => hn x (List.mem_cons_of_mem l hx))
    calc Rectangle.parseLoop ShaderType.VERTEX (v, f) (l :: ls ++ tail)
        = Rectangle.parseLoop ShaderType.VERTEX (v ++ (l ++ "\n"), f)
            (ls ++ tail) := by
          simp [Rectangle.parseLoop, hl, Rectangle.appendAt,
            ShaderType.toIndex, String.append_assoc]
      _ = Rectangle.parseLoop ShaderType.VERTEX
            (v ++ (l ++ "\n") ++ joinLines ls, f) tail := h2
      _ = Rectangle.parseLoop ShaderType.VERTEX
            (v ++ joinLines (l :: ls), f) tail := by
          rw [String.append_assoc, joinLines, String.append_assoc]

theorem parseLoop_fragment_append (ms : List String) :
    ∀ (v f : String) (tail : List String),
      (∀ l ∈ ms, hasSubstr l "shader" = false) →
      Rectangle.parseLoop ShaderType.FRAGMENT (v, f) (ms ++ tail) =
        Rectangle.parseLoop ShaderType.FRAGMENT (v, f ++ joinLines ms) tail := by
  induction ms with
  | nil =>
    intro v f tail _
    simp [joinLines, String.append_empty]
  | cons l ls ih =>
    intro v f tail hn
    have hl : hasSubstr l "shader" = false := hn l (List.mem_cons_self l ls)
    have h2 := ih v (f ++ (l ++ "\n")) tail
      (fun x hx => hn x (List.mem_cons_of_mem l hx))
    calc Rectangle.parseLoop ShaderType.FRAGMENT (v, f) (l :: ls ++ tail)
        = Rectangle.parseLoop ShaderType.FRAGMENT (v, f ++ (l ++ "\n"))
            (ls ++ tail) := by
          simp [Rectangle.parseLoop, hl, Rectangle.appendAt,
            ShaderType.toIndex, String.append_assoc]
      _ = Rectangle.parseLoop ShaderType.FRAGMENT
            (v, f ++ (l ++ "\n") ++ joinLines ls) tail := h2
      _ = Rectangle.parseLoop ShaderType.FRAGMENT
            (v, f ++ joinLines (l :: ls)) tail := by
          rw [String.append_assoc, joinLines, String.append_assoc]

/-! ## Claim theorems -/

/-- C1 (refuted, code bug): the out-of-range index -1 arising while the
selected target is still NONE IS used for an append as soon as a non-marker
line precedes every marker: on the one-line file "x" the loop reaches the
error branch of the Option indexing (the C++ writes to ss[-1], out of
bounds), so that branch is reachable, contrary to the claim. -/
theorem parseShader_leading_line_faults :
    Rectangle.parseShaderLines ["x"] = none ∧
    Rectangle.appendAt ("", "") (ShaderType.toIndex ShaderType.NONE) "x" =
      none :=
  ⟨rfl, rfl⟩

/-- C2 (refuted, code bug): a marker-free file with content does not yield
two empty buffers, and a content line before the first marker is not merely
dropped: in both cases the loop hits the out-of-bounds index -1 (undefined
behaviour in the C++), modelled as none.  Only the empty file yields two
empty buffers. -/
theorem parseShader_no_marker_faults :
    Rectangle.parseShaderLines ["hello"] = none ∧
    Rectangle.parseShaderLines ["hello", "vertex shader", "a"] = none ∧
    Rectangle.parseShaderLines [] =
      some ⟨"", ""⟩ :=
  ⟨rfl, rfl, rfl⟩

/-- C3 (confirmed): a file of a vertex marker, N non-marker lines, a
fragment marker, then M non-marker lines parses to the N lines (each with
its newline) in the vertex buffer and the M lines in the fragment buffer. -/
theorem parseShader_two_sections (ns ms : List String)
    (hn : ∀ l ∈ ns, hasSubstr l "shader" = false)
    (hm : ∀ l ∈ ms, hasSubstr l "shader" = false) :
    Rectangle.parseShaderLines
        ("vertex shader" :: ns ++ "fragment shader" :: ms) =
      some ⟨joinLines ns, joinLines ms⟩ := by
  have hv1 : hasSubstr "vertex shader" "shader" = true := rfl
  have hv2 : hasSubstr "vertex shader" "vertex" = true := rfl
  have hf1 : hasSubstr "fragment shader" "shader" = true := rfl
  have hf2 : hasSubstr "fragment shader" "vertex" = false := rfl
  have hf3 : hasSubstr "fragment shader" "fragment" = true := rfl
  unfold Rectangle.parseShaderLines
  rw [show ("vertex shader" :: ns ++ "fragment shader" :: ms) =
    "vertex shader" :: (ns ++ "fragment shader" :: ms) from rfl]
  rw [show Rectangle.parseLoop ShaderType.NONE ("", "")
      ("vertex shader" :: (ns ++ "fragment shader" :: ms)) =
    Rectangle.parseLoop ShaderType.VERTEX ("", "")
      (ns ++ "fragment shader" :: ms) from by
    simp [Rectangle.parseLoop, hv1, hv2]]
  rw [parseLoop_vertex_append ns "" "" ("fragment shader" :: ms) hn]
  rw [show Rectangle.parseLoop ShaderType.VERTEX
      ("" ++ joinLines ns, "") ("fragment shader" :: ms) =
    Rectangle.parseLoop ShaderType.FRAGMENT ("" ++ joinLines ns, "") ms from by
    simp [Rectangle.parseLoop, hf1, hf2, hf3]]
  rw [show (ms : List String) = ms ++ [] from (List.append_nil ms).symm]
  rw [parseLoop_fragment_append ms ("" ++ joinLines ns) "" [] hm]
  simp [Rectangle.parseLoop, String.empty_append]

/-- Witness for C3 at N = 1 and M = 2. -/
theorem parseShader_two_sections_witness :
    (∀ l ∈ ["a"], hasSubstr l "shader" = false) ∧
    (∀ l ∈ ["b", "c"], hasSubstr l "shader" = false) ∧
    Rectangle.parseShaderLines
        ("vertex shader" :: ["a"] ++ "fragment shader" :: ["b", "c"]) =
      some ⟨joinLines ["a"], joinLines ["b", "c"]⟩ :=
  ⟨by decide, by decide,
    parseShader_two_sections ["a"] ["b", "c"] (by decide) (by decide)⟩

/-- C4 (confirmed): a line containing "shader" is never appended to either
buffer; it switches the target to VERTEX when it contains "vertex", else to
FRAGMENT when it contains "fragment", and otherwise leaves it unchanged. -/
theorem marker_line_switches_target (line : String) (ty : ShaderType)
    (ss : String × String) (rest : List String)
    (h : hasSubstr line "shader" = true) :
    Rectangle.parseLoop ty ss (line :: rest) =
      Rectangle.parseLoop
        (if hasSubstr line "vertex" then ShaderType.VERTEX
         else if hasSubstr line "fragment" then ShaderType.FRAGMENT else ty)
        ss rest := by
  cases hv : hasSubstr line "vertex" <;>
    cases hf : hasSubstr line "fragment" <;>
      simp [Rectangle.parseLoop, h, hv, hf]

/-- Witness for C4 on the marker line "compute shader", which names neither
stage: the target is left unchanged and nothing is appended. -/
theorem marker_line_switches_target_witness :
    hasSubstr "compute shader" "shader" = true ∧
    Rectangle.parseLoop ShaderType.FRAGMENT ("v\n", "f\n")
        ["compute shader"] =
      Rectangle.parseLoop
        (if hasSubstr "compute shader" "vertex" then ShaderType.VERTEX
         else if hasSubstr "compute shader" "fragment" then
           ShaderType.FRAGMENT
         else ShaderType.FRAGMENT)
        ("v\n", "f\n") [] :=
  ⟨by decide,
    marker_line_switches_target "compute shader" ShaderType.FRAGMENT
      ("v\n", "f\n") [] (by decide)⟩

/-- C10 (confirmed): on a marker line containing "vertex" the target becomes
VERTEX regardless of whether the line also contains "fragment", because the
"fragment" test sits in the else branch of the "vertex" test. -/
theorem vertex_test_takes_precedence (line : String) (ty : ShaderType)
    (ss : String × String) (rest : List String)
    (hs : hasSubstr line "shader" = true)
    (hv : hasSubstr line "vertex" = true) :
    Rectangle.parseLoop ty ss (line :: rest) =
      Rectangle.parseLoop ShaderType.VERTEX ss rest := by
  simp [Rectangle.parseLoop, hs, hv]

/-- Witness for C10 on a line containing "shader", "vertex" and "fragment". -/
theorem vertex_test_takes_precedence_witness :
    hasSubstr "vertex and fragment shader" "shader" = true ∧
    hasSubstr "vertex and fragment shader" "vertex" = true ∧
    hasSubstr "vertex and fragment shader" "fragment" = true ∧
    Rectangle.parseLoop ShaderType.NONE ("", "")
        ["vertex and fragment shader"] =
      Rectangle.parseLoop ShaderType.VERTEX ("", "") [] :=
  ⟨by decide, by decide, by decide,
    vertex_test_takes_precedence "vertex and fragment shader" ShaderType.NONE
      ("", "") [] (by decide) (by decide)⟩

/-- C7 (confirmed): an unopenable file makes getline fail at once, the loop
body never runs, no error is signalled and both returned buffers are empty. -/
theorem parseShader_unopenable_file :
    Rectangle.parseShaderFile none = some ⟨"", ""⟩ ∧
    (none : Option (List String)).getD [] = [] :=
  ⟨rfl, rfl⟩

/-- C5 (confirmed): when either stage's source fails to compile,
CompileShader queries the log length, fetches the log, prints the header
and the driver's log, deletes the shader object and returns 0 for that
stage; CreateShader nevertheless attaches both stage handles (including
the zero handle of the failed stage) to the program, links and validates
it, and returns the program identifier, with no structured error.  The
three failure scenarios (vertex fails, fragment fails, both fail) are each
given by their full event trace. -/
theorem compile_failure_degrades_silently (drv : GLDriver) (ty : Nat)
    (s v f : String) :
    (drv.compileOk ty s = false →
      ∀ st : GLState,
        (Rectangle.CompileShader drv ty s st).1 = 0 ∧
        (Rectangle.CompileShader drv ty s st).2.events =
          st.events ++
            [GLEvent.createShader ty,
             GLEvent.shaderSource st.nextId s,
             GLEvent.compileShader st.nextId,
             GLEvent.getShaderiv st.nextId GL_COMPILE_STATUS,
             GLEvent.getShaderiv st.nextId GL_INFO_LOG_LENGTH,
             GLEvent.getShaderInfoLog st.nextId,
             GLEvent.printLine ("Failed to compile " ++
               (if ty = GL_VERTEX_SHADER then "vertex" else "fragment") ++
               " shader!"),
             GLEvent.printLine (drv.infoLog ty s),
             GLEvent.deleteShader st.nextId]) ∧
    (drv.compileOk GL_VERTEX_SHADER v = false →
      drv.compileOk GL_FRAGMENT_SHADER f = true →
      Rectangle.CreateShader drv v f initGLState =
        (1, ⟨4,
          [GLEvent.createProgram,
           GLEvent.createShader GL_VERTEX_SHADER,
           GLEvent.shaderSource 2 v,
           GLEvent.compileShader 2,
           GLEvent.getShaderiv 2 GL_COMPILE_STATUS,
           GLEvent.getShaderiv 2 GL_INFO_LOG_LENGTH,
           GLEvent.getShaderInfoLog 2,
           GLEvent.printLine "Failed to compile vertex shader!",
           GLEvent.printLine (drv.infoLog GL_VERTEX_SHADER v),
           GLEvent.deleteShader 2,
           GLEvent.createShader GL_FRAGMENT_SHADER,
           GLEvent.shaderSource 3 f,
           GLEvent.compileShader 3,
           GLEvent.getShaderiv 3 GL_COMPILE_STATUS,
           GLEvent.attachShader 1 0,
           GLEvent.attachShader 1 3,
           GLEvent.linkProgram 1,
           GLEvent.validateProgram 1,
           GLEvent.deleteShader 0,
           GLEvent.deleteShader 3]⟩)) ∧
    (drv.compileOk GL_VERTEX_SHADER v = true →
      drv.compileOk GL_FRAGMENT_SHADER f = false →
      Rectangle.CreateShader drv v f initGLState =
        (1, ⟨4,
          [GLEvent.createProgram,
           GLEvent.createShader GL_VERTEX_SHADER,
           GLEvent.shaderSource 2 v,
           GLEvent.compileShader 2,
           GLEvent.getShaderiv 2 GL_COMPILE_STATUS,
           GLEvent.createShader GL_FRAGMENT_SHADER,
           GLEvent.shaderSource 3 f,
           GLEvent.compileShader 3,
           GLEvent.getShaderiv 3 GL_COMPILE_STATUS,
           GLEvent.getShaderiv 3 GL_INFO_LOG_LENGTH,
           GLEvent.getShaderInfoLog 3,
           GLEvent.printLine "Failed to compile fragment shader!",
           GLEvent.printLine (drv.infoLog GL_FRAGMENT_SHADER f),
           GLEvent.deleteShader 3,
           GLEvent.attachShader 1 2,
           GLEvent.attachShader 1 0,
           GLEvent.linkProgram 1,
           GLEvent.validateProgram 1,
           GLEvent.deleteShader 2,
           GLEvent.deleteShader 0]⟩)) ∧
    (drv.compileOk GL_VERTEX_SHADER v = false →
      drv.compileOk GL_FRAGMENT_SHADER f = false →
      Rectangle.CreateShader drv v f initGLState =
        (1, ⟨4,
          [GLEvent.createProgram,
           GLEvent.createShader GL_VERTEX_SHADER,
           GLEvent.shaderSource 2 v,
           GLEvent.compileShader 2,
           GLEvent.getShaderiv 2 GL_COMPILE_STATUS,
           GLEvent.getShaderiv 2 GL_INFO_LOG_LENGTH,
           GLEvent.getShaderInfoLog 2,
           GLEvent.printLine "Failed to compile vertex shader!",
           GLEvent.printLine (drv.infoLog GL_VERTEX_SHADER v),
           GLEvent.deleteShader 2,
           GLEvent.createShader GL_FRAGMENT_SHADER,
           GLEvent.shaderSource 3 f,
           GLEvent.compileShader 3,
           GLEvent.getShaderiv 3 GL_COMPILE_STATUS,
           GLEvent.getShaderiv 3 GL_INFO_LOG_LENGTH,
           GLEvent.getShaderInfoLog 3,
           GLEvent.printLine "Failed to compile fragment shader!",
           GLEvent.printLine (drv.infoLog GL_FRAGMENT_SHADER f),
           GLEvent.deleteShader 3,
           GLEvent.attachShader 1 0,
           GLEvent.attachShader 1 0,
           GLEvent.linkProgram 1,
           GLEvent.validateProgram 1,
           GLEvent.deleteShader 0,
           GLEvent.deleteShader 0]⟩)) := by
  refine ⟨?_, ?_, ?_, ?_⟩
  · intro h st
    constructor
    · simp [Rectangle.CompileShader, h]
    · simp [Rectangle.CompileShader, h]
  · intro h1 h2
    have hne : GL_FRAGMENT_SHADER ≠ GL_VERTEX_SHADER := by decide
    simp [Rectangle.CreateShader, Rectangle.CompileShader, initGLState,
      h1, h2, hne]
  · intro h1 h2
    have hne : GL_FRAGMENT_SHADER ≠ GL_VERTEX_SHADER := by decide
    simp [Rectangle.CreateShader, Rectangle.CompileShader, initGLState,
      h1, h2, hne]
  · intro h1 h2
    have hne : GL_FRAGMENT_SHADER ≠ GL_VERTEX_SHADER := by decide
    simp [Rectangle.CreateShader, Rectangle.CompileShader, initGLState,
      h1, h2, hne]

/-- Witness for C5 with the driver that fails only the fragment stage:
the fragment compile returns 0 and CreateShader attaches the real vertex
handle 2 and the zero fragment handle, links, validates, and returns the
program identifier 1. -/
theorem compile_failure_degrades_silently_witness :
    GLDriverFragFail.compileOk GL_FRAGMENT_SHADER "bad" = false ∧
    GLDriverFragFail.compileOk GL_VERTEX_SHADER "v" = true ∧
    (Rectangle.CompileShader GLDriverFragFail GL_FRAGMENT_SHADER "bad"
      initGLState).1 = 0 ∧
    Rectangle.CreateShader GLDriverFragFail "v" "bad" initGLState =
      (1, ⟨4,
        [GLEvent.createProgram,
         GLEvent.createShader GL_VERTEX_SHADER,
         GLEvent.shaderSource 2 "v",
         GLEvent.compileShader 2,
         GLEvent.getShaderiv 2 GL_COMPILE_STATUS,
         GLEvent.createShader GL_FRAGMENT_SHADER,
         GLEvent.shaderSource 3 "bad",
         GLEvent.compileShader 3,
         GLEvent.getShaderiv 3 GL_COMPILE_STATUS,
         GLEvent.getShaderiv 3 GL_INFO_LOG_LENGTH,
         GLEvent.getShaderInfoLog 3,
         GLEvent.printLine "Failed to compile fragment shader!",
         GLEvent.printLine (GLDriverFragFail.infoLog GL_FRAGMENT_SHADER "bad"),
         GLEvent.deleteShader 3,
         GLEvent.attachShader 1 2,
         GLEvent.attachShader 1 0,
         GLEvent.linkProgram 1,
         GLEvent.validateProgram 1,
         GLEvent.deleteShader 2,
         GLEvent.deleteShader 0]⟩) :=
  ⟨rfl, rfl,
    ((compile_failure_degrades_silently GLDriverFragFail GL_FRAGMENT_SHADER
      "bad" "v" "bad").1 rfl initGLState).1,
    (compile_failure_degrades_silently GLDriverFragFail GL_FRAGMENT_SHADER
      "bad" "v" "bad").2.2.1 rfl rfl⟩

/-- C6 (confirmed): when both stages compile, CreateShader performs exactly
the sequence create program, compile vertex stage (create, source, compile,
status query), compile fragment stage, attach both, link, validate, delete
the two shader objects; the returned handle is the program identifier. -/
theorem createShader_call_sequence (drv : GLDriver) (v f : String)
    (hv : drv.compileOk GL_VERTEX_SHADER v = true)
    (hf : drv.compileOk GL_FRAGMENT_SHADER f = true) :
    (∀ st : GLState, (Rectangle.CreateShader drv v f st).1 = st.nextId) ∧
    Rectangle.CreateShader drv v f initGLState =
      (1, ⟨4,
        [GLEvent.createProgram,
         GLEvent.createShader GL_VERTEX_SHADER,
         GLEvent.shaderSource 2 v,
         GLEvent.compileShader 2,
         GLEvent.getShaderiv 2 GL_COMPILE_STATUS,
         GLEvent.createShader GL_FRAGMENT_SHADER,
         GLEvent.shaderSource 3 f,
         GLEvent.compileShader 3,
         GLEvent.getShaderiv 3 GL_COMPILE_STATUS,
         GLEvent.attachShader 1 2,
         GLEvent.attachShader 1 3,
         GLEvent.linkProgram 1,
         GLEvent.validateProgram 1,
         GLEvent.deleteShader 2,
         GLEvent.deleteShader 3]⟩) := by
  constructor
  · intro st
    cases h1 : drv.compileOk GL_VERTEX_SHADER v <;>
      cases h2 : drv.compileOk GL_FRAGMENT_SHADER f <;>
        simp [Rectangle.CreateShader, Rectangle.CompileShader]
  · simp [Rectangle.CreateShader, Rectangle.CompileShader, initGLState,
      hv, hf]

/-- Witness for C6 with the always-succeeding driver. -/
theorem createShader_call_sequence_witness :
    GLDriverAllOk.compileOk GL_VERTEX_SHADER "v" = true ∧
    GLDriverAllOk.compileOk GL_FRAGMENT_SHADER "f" = true ∧
    Rectangle.CreateShader GLDriverAllOk "v" "f" initGLState =
      (1, ⟨4,
        [GLEvent.createProgram,
         GLEvent.createShader GL_VERTEX_SHADER,
         GLEvent.shaderSource 2 "v",
         GLEvent.compileShader 2,
         GLEvent.getShaderiv 2 GL_COMPILE_STATUS,
         GLEvent.createShader GL_FRAGMENT_SHADER,
         GLEvent.shaderSource 3 "f",
         GLEvent.compileShader 3,
         GLEvent.getShaderiv 3 GL_COMPILE_STATUS,
         GLEvent.attachShader 1 2,
         GLEvent.attachShader 1 3,
         GLEvent.linkProgram 1,
         GLEvent.validateProgram 1,
         GLEvent.deleteShader 2,
         GLEvent.deleteShader 3]⟩) :=
  ⟨rfl, rfl, (createShader_call_sequence GLDriverAllOk "v" "f" rfl rfl).2⟩

/-- C8 counterexample: when window creation fails main does exit with the
failure status, but it prints nothing, contrary to the claim that every such
exit happens "after printing a message"; only the unset-variable path
prints. -/
theorem main_window_failure_prints_nothing :
    noWindowWorld.createWindowOk = false ∧
    Rectangle.mainRun noWindowWorld = some (EXIT_FAILURE, []) :=
  ⟨rfl, rfl⟩

/-- C8 amended (proved): main exits with EXIT_FAILURE whenever glfwInit
fails, SHADER_PATH is unset, window creation fails, or glewInit fails; a
message is printed only in the unset-variable case; and a run in which all
initialization succeeds and parsing does not fault exits with EXIT_SUCCESS
on normal window close. -/
theorem main_exit_codes (w : World) :
    (w.glfwInitOk = false → Rectangle.mainRun w = some (EXIT_FAILURE, [])) ∧
    (w.glfwInitOk = true → w.shaderPathEnv = none →
      Rectangle.mainRun w =
        some (EXIT_FAILURE,
          ["Environment variable for shader path not set"])) ∧
    (∀ p, w.glfwInitOk = true → w.shaderPathEnv = some p →
      w.createWindowOk = false →
      Rectangle.mainRun w = some (EXIT_FAILURE, [])) ∧
    (∀ p, w.glfwInitOk = true → w.shaderPathEnv = some p →
      w.createWindowOk = true → w.glewInitOk = false →
      Rectangle.mainRun w = some (EXIT_FAILURE, [])) ∧
    (∀ p src, w.glfwInitOk = true → w.shaderPathEnv = some p →
      w.createWindowOk = true → w.glewInitOk = true →
      Rectangle.parseShaderFile (w.fileLines p) = some src →
      Rectangle.mainRun w =
        some (EXIT_SUCCESS,
          printedLines (Rectangle.CreateShader w.drv src.vertexShaderSource
            src.fragmentShaderSource initGLState).2.events)) := by
  refine ⟨?_, ?_, ?_, ?_, ?_⟩
  · intro h1
    simp [Rectangle.mainRun, h1]
  · intro h1 h2
    simp [Rectangle.mainRun, h1, h2]
  · intro p h1 h2 h3
    simp [Rectangle.mainRun, h1, h2, h3]
  · intro p h1 h2 h3 h4
    simp [Rectangle.mainRun, h1, h2, h3, h4]
  · intro p src h1 h2 h3 h4 h5
    simp [Rectangle.mainRun, h1, h2, h3, h4, h5]

/-- Witness for the amended C8: in the world where glfwInit fails, main
exits with EXIT_FAILURE and prints nothing. -/
theorem main_exit_codes_witness :
    Rectangle.mainRun failInitWorld = some (EXIT_FAILURE, []) :=
  (main_exit_codes failInitWorld).1 rfl

/-- C9 (confirmed): the ParseShader, CompileShader and CreateShader
functions of the triangle example and of the rectangle example are
extensionally equal: on every input each pair of same-named functions
returns the same result. -/
theorem triangle_rectangle_same_functions :
    (∀ lines, Triangle.parseShaderLines lines =
      Rectangle.parseShaderLines lines) ∧
    (∀ (drv : GLDriver) (ty : Nat) (src : String) (st : GLState),
      Triangle.CompileShader drv ty src st =
        Rectangle.CompileShader drv ty src st) ∧
    (∀ (drv : GLDriver) (v f : String) (st : GLState),
      Triangle.CreateShader drv v f st =
        Rectangle.CreateShader drv v f st) := by
  refine ⟨?_, ?_, ?_⟩
  · have h : ∀ (l : List String) (ty : ShaderType) (ss : String × String),
        Triangle.parseLoop ty ss l = Rectangle.parseLoop ty ss l := by
      intro l
      induction l with
      | nil => intro ty ss; rfl
      | cons x xs ih =>
        intro ty ss
        cases hs : hasSubstr x "shader" <;>
          cases hv : hasSubstr x "vertex" <;>
            cases hf : hasSubstr x "fragment" <;>
              simp [Triangle.parseLoop, Rectangle.parseLoop, hs, hv, hf,
                Triangle.appendAt, Rectangle.appendAt, ih]
    intro lines
    simp [Triangle.parseShaderLines, Rectangle.parseShaderLines, h]
  · intro drv ty src st
    rfl
  · intro drv v f st
    rfl
